import Mathlib

/-!
Verification of the Lutron RadioRA 2 integration core logic.

This development gives a shallow embedding of the integration's setup pass
(`__init__.py`), its unique-id migration routines, the brightness
conversion helpers (`light.py`), and the button-event dispatch
(`event.py`), and proves the behavioural properties stated in the
specification against that embedding.

Vendor objects (outputs, keypads, buttons, LEDs, occupancy groups,
variables) come from the external `pylutron` library; they are modelled
here as plain records carrying exactly the fields the integration reads.
-/

namespace Lutron

/-- The integration domain constant (`const.py`: `DOMAIN = "lutron"`). -/
def DOMAIN : String := "lutron"

/-- A vendor output (load) record, with the fields read by the setup pass:
`type`, `is_light`, `uuid`, `legacy_uuid` (plus name/id/dimmable carried along). -/
structure Output where
  name : String
  type : String
  is_light : Bool
  is_dimmable : Bool
  uuid : String
  legacy_uuid : String
  id : Nat
  deriving DecidableEq, Repr

/-- A keypad button record: `name`, `number`, `button_type`, `led_logic`,
`uuid`, `legacy_uuid` are the fields the setup pass reads.  An empty
`button_type` models a missing/falsy vendor tag (Python `if button.button_type:`). -/
structure Button where
  name : String
  number : Nat
  button_type : String
  led_logic : Nat
  uuid : String
  legacy_uuid : String
  deriving DecidableEq, Repr

/-- A keypad LED record; `number` is its slot id on the keypad. -/
structure Led where
  name : String
  number : Nat
  uuid : String
  legacy_uuid : String
  deriving DecidableEq, Repr

/-- A keypad with its buttons and LEDs. -/
structure Keypad where
  name : String
  buttons : List Button
  leds : List Led
  deriving DecidableEq, Repr

/-- An occupancy group; `id = 0` signals that no real occupancy group is
attached to the area. -/
structure OccupancyGroup where
  name : String
  id : Nat
  uuid : String
  legacy_uuid : String
  deriving DecidableEq, Repr

/-- A controller-global variable (`Sysvar`).  It carries both identifier
generations even though the variable branch of the setup pass only ever
passes the legacy one to the migration helpers. -/
structure Sysvar where
  name : String
  id : Nat
  uuid : String
  legacy_uuid : String
  deriving DecidableEq, Repr

/-- An area of the topology snapshot. -/
structure Area where
  name : String
  location : String
  outputs : List Output
  keypads : List Keypad
  occupancy_group : Option OccupancyGroup
  deriving DecidableEq, Repr

/-- The entity-category buckets an output can be sorted into by the setup
pass (`entry_data.covers` / `fans` / `lights` / `switches`). -/
inductive Bucket where
  | cover
  | fan
  | light
  | switch
  deriving DecidableEq, Repr

/-- The output classification chain of `async_setup_entry`
(`__init__.py` lines 178-191), first match wins:
shades/motors → cover; ceiling fans → fan and (deprecated dual
registration) light; `is_light` → light; otherwise → switch. -/
def classifyOutput (o : Output) : List Bucket :=
  if o.type = "SYSTEM_SHADE" ∨ o.type = "MOTOR" then
    [Bucket.cover]
  else if o.type = "CEILING_FAN_TYPE" then
    [Bucket.fan, Bucket.light]
  else if o.is_light then
    [Bucket.light]
  else
    [Bucket.switch]

/-- The fixed allow-list of button interaction styles that make a keypad
button scene-eligible (`__init__.py` lines 217-226). -/
def allowedButtonTypes : List String :=
  ["SingleAction", "Toggle", "SingleSceneRaiseLower", "MasterRaiseLower",
   "DualAction", "AdvancedToggle", "AdvancedConditional", "SimpleConditional"]

/-- Scene eligibility of a keypad button (`__init__.py` line 217): its
display name is not the `"Unknown Button"` placeholder and its button
type is in the fixed allow-list. -/
def sceneEligible (b : Button) : Bool :=
  b.name != "Unknown Button" && allowedButtonTypes.contains b.button_type

/-- The LED associated with a button: the first LED of the same keypad
whose slot number equals the button's number (`__init__.py` lines 228-231,
`next((led for led in keypad.leds if led.number == button.number), None)`). -/
def findLed (k : Keypad) (b : Button) : Option Led :=
  k.leds.find? (fun led => led.number == b.number)

/-- An entry of the scene bucket (`entry_data.scenes`):
`(area_name, device_name, keypad, button, led)`. -/
structure SceneRec where
  area : String
  device : String
  keypad : Keypad
  button : Button
  led : Option Led
  deriving DecidableEq, Repr

/-- An entry of the controllable-LED bucket (`entry_data.leds`):
`(area_name, device_name, keypad, led)`. -/
structure LedRec where
  area : String
  device : String
  keypad : Keypad
  led : Led
  deriving DecidableEq, Repr

/-- An entry of the raw-buttons bucket (`entry_data.buttons`):
`(area_name, device_name, keypad, button)`. -/
structure RawButtonRec where
  area : String
  device : String
  keypad : Keypad
  button : Button
  deriving DecidableEq, Repr

/-- The scene-bucket contribution of one button of the keypad loop
(`__init__.py` lines 215-234): a scene-eligible button is appended
together with its associated LED (which may be absent). -/
def buttonSceneRecs (area dev : String) (k : Keypad) (b : Button) : List SceneRec :=
  if sceneEligible b then [⟨area, dev, k, b, findLed k b⟩] else []

/-- The controllable-LED-bucket contribution of one button
(`__init__.py` lines 236-238): inside the scene-eligible branch, the
associated LED is appended when it exists and `button.led_logic == 5`. -/
def buttonLedRecs (area dev : String) (k : Keypad) (b : Button) : List LedRec :=
  if sceneEligible b then
    match findLed k b with
    | some led => if b.led_logic = 5 then [⟨area, dev, k, led⟩] else []
    | none => []
  else []

/-- The raw-buttons-bucket contribution of one button (`__init__.py`
lines 259-260): any button with a truthy (non-empty) `button_type` is
appended, independently of scene eligibility. -/
def buttonRawRecs (area dev : String) (k : Keypad) (b : Button) : List RawButtonRec :=
  if b.button_type ≠ "" then [⟨area, dev, k, b⟩] else []

/-- Append the per-button contributions of a loop body over a button list,
in loop order. -/
def collectWith (f : Button → List α) : List Button → List α
  | [] => []
  | b :: rest => f b ++ collectWith f rest

/-- The scene bucket collected over a keypad's button list, in loop order. -/
def collectScenes (area dev : String) (k : Keypad) (l : List Button) : List SceneRec :=
  collectWith (buttonSceneRecs area dev k) l

/-- The controllable-LED bucket collected over a keypad's button list. -/
def collectLeds (area dev : String) (k : Keypad) (l : List Button) : List LedRec :=
  collectWith (buttonLedRecs area dev k) l

/-- The raw-buttons bucket collected over a keypad's button list. -/
def collectRawButtons (area dev : String) (k : Keypad) (l : List Button) : List RawButtonRec :=
  collectWith (buttonRawRecs area dev k) l

/-- The binary-sensor-bucket contribution of one area (`__init__.py`
lines 261-263): the occupancy group is registered only when it exists and
its numeric id is non-zero. -/
def areaBinarySensors (area_name : String) (a : Area) : List (String × OccupancyGroup) :=
  match a.occupancy_group with
  | some og => if og.id ≠ 0 then [(area_name, og)] else []
  | none => []

/-- An entity-registry registration: an entity id, its category
(`domain`), its integration (`platform`), its unique id, and an opaque
stand-in for every other stored attribute. -/
structure RegEntry where
  entity_id : String
  domain : String
  platform : String
  unique_id : String
  attrs : Nat
  deriving DecidableEq, Repr

/-- Host registry lookup `entity_registry.async_get_entity_id(domain,
platform, unique_id)`: the entity id of the first registration matching
all three keys. -/
def async_get_entity_id (reg : List RegEntry) (domain platform unique_id : String) :
    Option String :=
  (reg.find? fun e =>
    e.domain == domain && e.platform == platform && e.unique_id == unique_id).map
    RegEntry.entity_id

/-- Host registry update `entity_registry.async_update_entity(entity_id,
new_unique_id=...)`: rewrite the unique id of the registration with the
given entity id, in place, preserving every other attribute. -/
def async_update_entity (reg : List RegEntry) (entity_id new_unique_id : String) :
    List RegEntry :=
  reg.map fun e =>
    if e.entity_id == entity_id then { e with unique_id := new_unique_id } else e

/-- The entity-id migration routine `_async_check_entity_unique_id`
(`__init__.py` lines 316-337): return unchanged when `uuid` is falsy
(empty); otherwise look up the registration keyed by
`"{controller_guid}_{legacy_uuid}"` and, when found, rewrite it to be
keyed by `"{controller_guid}_{uuid}"`; a lookup miss changes nothing. -/
def async_check_entity_unique_id (reg : List RegEntry)
    (platform uuid legacy_uuid controller_guid : String) : List RegEntry :=
  if uuid = "" then reg
  else
    match async_get_entity_id reg platform DOMAIN (controller_guid ++ "_" ++ legacy_uuid) with
    | none => reg
    | some entity_id =>
        async_update_entity reg entity_id (controller_guid ++ "_" ++ uuid)

/-- A device-registry registration: a device id, its identifier set, and
an opaque stand-in for every other stored attribute. -/
structure DeviceEntry where
  id : String
  identifiers : List (String × String)
  attrs : Nat
  deriving DecidableEq, Repr

/-- Host registry lookup `device_registry.async_get_device(identifiers=
{(DOMAIN, unique_id)})`: the first device carrying that identifier. -/
def async_get_device (reg : List DeviceEntry) (ident : String × String) :
    Option DeviceEntry :=
  reg.find? fun d => d.identifiers.contains ident

/-- Host registry update `device_registry.async_update_device(device.id,
new_identifiers={(DOMAIN, new_unique_id)})`: replace the identifier set of
the device with the given id, preserving every other attribute. -/
def async_update_device (reg : List DeviceEntry) (devId : String)
    (new_identifiers : List (String × String)) : List DeviceEntry :=
  reg.map fun d =>
    if d.id == devId then { d with identifiers := new_identifiers } else d

/-- The device-identifier migration routine `_async_check_device_identifiers`
(`__init__.py` lines 340-359): same contract as the entity routine, on the
device registry. -/
def async_check_device_identifiers (reg : List DeviceEntry)
    (uuid legacy_uuid controller_guid : String) : List DeviceEntry :=
  if uuid = "" then reg
  else
    match async_get_device reg (DOMAIN, controller_guid ++ "_" ++ legacy_uuid) with
    | none => reg
    | some device =>
        async_update_device reg device.id [(DOMAIN, controller_guid ++ "_" ++ uuid)]

/-- A registration is keyed by a `(category, integration, unique_id)`
triple. -/
def entKeyed (domain unique_id : String) (e : RegEntry) : Prop :=
  e.domain = domain ∧ e.platform = DOMAIN ∧ e.unique_id = unique_id

instance (domain unique_id : String) (e : RegEntry) :
    Decidable (entKeyed domain unique_id e) := by
  unfold entKeyed
  infer_instance

/-- A device registration is keyed by carrying a `(DOMAIN, unique_id)`
identifier. -/
def devKeyed (unique_id : String) (d : DeviceEntry) : Prop :=
  (DOMAIN, unique_id) ∈ d.identifiers

instance (unique_id : String) (d : DeviceEntry) :
    Decidable (devKeyed unique_id d) := by
  unfold devKeyed
  infer_instance

/-- The variable branch of the setup pass (`__init__.py` lines 281-300):
for every controller variable, append it to the variables bucket and call
both migration routines with the empty string as the new uuid. -/
def processVariables (controller_guid : String) :
    List Sysvar → List RegEntry → List DeviceEntry → List (String × Sysvar) →
      List RegEntry × List DeviceEntry × List (String × Sysvar)
  | [], ereg, dreg, acc => (ereg, dreg, acc)
  | v :: rest, ereg, dreg, acc =>
      processVariables controller_guid rest
        (async_check_entity_unique_id ereg "sensor" "" v.legacy_uuid controller_guid)
        (async_check_device_identifiers dreg "" v.legacy_uuid controller_guid)
        (acc ++ [(v.name, v)])

/-- The `pylutron` button events referenced by the handler's dispatch
table (`event.py` lines 104-110). -/
inductive ButtonEvent where
  | press
  | release
  | hold
  | double_tap
  | hold_release
  deriving DecidableEq, Repr

/-- The integration's event enumeration `LutronEventType` (`event.py`
lines 18-26): six members, `single_press` plus the five mapped ones. -/
inductive LutronEventType where
  | single_press
  | press
  | release
  | hold
  | double_tap
  | hold_release
  deriving DecidableEq, Repr

/-- The `LEGACY_EVENT_TYPES` table (`event.py` lines 29-36): the action
string attached to the broadcast event for each enumeration member. -/
def LEGACY_EVENT_TYPES : LutronEventType → String
  | LutronEventType.single_press => "single"
  | LutronEventType.press => "press"
  | LutronEventType.release => "release"
  | LutronEventType.hold => "hold"
  | LutronEventType.double_tap => "double_tap"
  | LutronEventType.hold_release => "hold_release"

/-- The handler's dispatch table `ev_map` with its `.get` access
(`event.py` lines 104-112): a dictionary lookup that yields `none` for
any event outside the five mapped values. -/
def evMap : ButtonEvent → Option LutronEventType
  | ButtonEvent.press => some LutronEventType.press
  | ButtonEvent.release => some LutronEventType.release
  | ButtonEvent.hold => some LutronEventType.hold
  | ButtonEvent.double_tap => some LutronEventType.double_tap
  | ButtonEvent.hold_release => some LutronEventType.hold_release

/-- The payload of the broadcast `lutron_event` (`event.py` lines
115-120): id slug, action tag, full-id slug and the button uuid. -/
structure FiredEvent where
  id : String
  action : String
  full_id : String
  uuid : String
  deriving DecidableEq, Repr

/-- The body of `handle_event` (`event.py` lines 97-124): look the event
up in `ev_map`; when the result is truthy (i.e. present — every
enumeration value is a non-empty string), fire the broadcast event with
the legacy action tag and trigger the entity event with the mapped value;
otherwise do nothing. -/
def handle_event (idSlug fullId btnUuid : String) (event : ButtonEvent) :
    Option (FiredEvent × LutronEventType) :=
  match evMap event with
  | none => none
  | some action =>
      some (⟨idSlug, LEGACY_EVENT_TYPES action, fullId, btnUuid⟩, action)

/-- Fuelled binary logarithm: `log2fuel fuel n` is `⌊log₂ n⌋` whenever
the fuel covers the number of halvings (and 0 for `n ≤ 1`). -/
def log2fuel : Nat → Nat → Nat
  | 0, _ => 0
  | f + 1, n => if n ≤ 1 then 0 else log2fuel f (n / 2) + 1

/-- `⌊log₂ n⌋` for positive `n` (fuel `n` suffices since `n < 2 ^ n`). -/
def natLog2 (n : Nat) : Nat := log2fuel n n

/-- `⌊log₂ (n / d)⌋` for a positive fraction `n / d`: the candidate
`⌊log₂ n⌋ - ⌊log₂ d⌋` is correct or off by one, fixed by one comparison. -/
def floorLog2 (n d : Nat) : Int :=
  let e : Int := (natLog2 n : Int) - (natLog2 d : Int)
  let le : Bool := if 0 ≤ e then d * 2 ^ e.toNat ≤ n else d ≤ n * 2 ^ (-e).toNat
  if le then e else e - 1

/-- Round the nonnegative fraction `n / d` to the nearest integer, ties
to even (the IEEE-754 default rounding). -/
def rnEven (n d : Nat) : Nat :=
  let f := n / d
  let r := n % d
  if 2 * r < d then f
  else if d < 2 * r then f + 1
  else if f % 2 = 0 then f else f + 1

/-- Multiply the fraction `n / d` by `2 ^ s`. -/
def scalePow2 (n d : Nat) (s : Int) : Nat × Nat :=
  if 0 ≤ s then (n * 2 ^ s.toNat, d) else (n, d * 2 ^ (-s).toNat)

/-- IEEE-754 binary64 rounding of the nonnegative exact fraction `n / d`
(round to nearest, ties to even, 53-bit significand): the result is the
exact value of the double, again as a fraction.  This models one Python
floating-point operation on values in the normal range, as produced by
the brightness conversions. -/
def fl64 (n d : Nat) : Nat × Nat :=
  if n = 0 then (0, 1)
  else
    let e := floorLog2 n d
    let p := scalePow2 n d (52 - e)
    let m := rnEven p.1 p.2
    scalePow2 m 1 (e - 52)

/-- `to_lutron_level` (`light.py` lines 113-115): the Python expression
`float((level * 100) / 255)` — an exact integer product followed by one
correctly rounded float division.  The returned pair is the exact value
of the resulting double. -/
def to_lutron_level (level : Nat) : Nat × Nat := fl64 (level * 100) 255

/-- Python `int()` on a nonnegative value: truncation toward zero, which
is the floor of the fraction. -/
def pyInt (n d : Nat) : Nat := n / d

/-- `to_hass_level` (`light.py` lines 118-120): the Python expression
`int((level * 255) / 100)` on a double, i.e. one rounded multiplication,
one rounded division and a truncation toward zero. -/
def to_hass_level (q : Nat × Nat) : Nat :=
  let a := fl64 (q.1 * 255) q.2
  let b := fl64 a.1 (a.2 * 100)
  pyInt b.1 b.2

end Lutron

namespace Lutron

/-- C1: the output classifier assigns buckets in first-match order: a
SYSTEM_SHADE or MOTOR output goes to the cover bucket and no other; a
CEILING_FAN_TYPE output (not caught by the cover branch) goes to both the
fan and the light bucket; otherwise an output with the `is_light` flag
goes to the light bucket; otherwise it goes to the switch bucket. -/
theorem classifyOutput_first_match_order (o : Output) :
    (o.type = "SYSTEM_SHADE" ∨ o.type = "MOTOR" → classifyOutput o = [Bucket.cover]) ∧
    (¬(o.type = "SYSTEM_SHADE" ∨ o.type = "MOTOR") → o.type = "CEILING_FAN_TYPE" →
      Bucket.fan ∈ classifyOutput o ∧ Bucket.light ∈ classifyOutput o ∧
      classifyOutput o = [Bucket.fan, Bucket.light]) ∧
    (¬(o.type = "SYSTEM_SHADE" ∨ o.type = "MOTOR") → o.type ≠ "CEILING_FAN_TYPE" →
      o.is_light = true → classifyOutput o = [Bucket.light]) ∧
    (¬(o.type = "SYSTEM_SHADE" ∨ o.type = "MOTOR") → o.type ≠ "CEILING_FAN_TYPE" →
      o.is_light = false → classifyOutput o = [Bucket.switch]) := by
  unfold classifyOutput
  by_cases h1 : o.type = "SYSTEM_SHADE" ∨ o.type = "MOTOR" <;>
    by_cases h2 : o.type = "CEILING_FAN_TYPE" <;>
      cases h3 : o.is_light <;>
        simp [h1, h2, h3]

/-- C1 witness: one concrete output per branch of the classifier. -/
theorem classifyOutput_first_match_order_witness :
    classifyOutput ⟨"Shade", "SYSTEM_SHADE", false, false, "u1", "l1", 1⟩ = [Bucket.cover] ∧
    (Bucket.fan ∈ classifyOutput ⟨"Fan", "CEILING_FAN_TYPE", false, false, "u2", "l2", 2⟩ ∧
      Bucket.light ∈ classifyOutput ⟨"Fan", "CEILING_FAN_TYPE", false, false, "u2", "l2", 2⟩ ∧
      classifyOutput ⟨"Fan", "CEILING_FAN_TYPE", false, false, "u2", "l2", 2⟩ =
        [Bucket.fan, Bucket.light]) ∧
    classifyOutput ⟨"Dimmer", "INC", true, true, "u3", "l3", 3⟩ = [Bucket.light] ∧
    classifyOutput ⟨"Plug", "EXHAUST_FAN_TYPE", false, false, "u4", "l4", 4⟩ =
      [Bucket.switch] :=
  ⟨(classifyOutput_first_match_order _).1 (Or.inl rfl),
   (classifyOutput_first_match_order _).2.1 (by decide) rfl,
   (classifyOutput_first_match_order _).2.2.1 (by decide) (by decide) rfl,
   (classifyOutput_first_match_order _).2.2.2 (by decide) (by decide) rfl⟩

/-- C8: the output classifier is total (every output lands in some bucket,
there is no failure path), and any output whose type is none of
SYSTEM_SHADE, MOTOR, CEILING_FAN_TYPE and whose `is_light` flag is unset —
including arbitrary unknown vendor type strings — falls through to the
default switch classification. -/
theorem classifyOutput_total_default_switch (o : Output) :
    classifyOutput o ≠ [] ∧
    (o.type ≠ "SYSTEM_SHADE" → o.type ≠ "MOTOR" → o.type ≠ "CEILING_FAN_TYPE" →
      o.is_light = false → classifyOutput o = [Bucket.switch]) := by
  unfold classifyOutput
  constructor
  · by_cases h1 : o.type = "SYSTEM_SHADE" ∨ o.type = "MOTOR" <;>
      by_cases h2 : o.type = "CEILING_FAN_TYPE" <;>
        cases h3 : o.is_light <;>
          simp [h1, h2, h3]
  · intro hs hm hc hl
    simp [hs, hm, hc, hl]

/-- C8 witness: a malformed vendor type string is absorbed by the default
switch classification. -/
theorem classifyOutput_total_default_switch_witness :
    classifyOutput ⟨"Weird", "???bogus-type???", false, false, "u", "l", 9⟩ ≠ [] ∧
    classifyOutput ⟨"Weird", "???bogus-type???", false, false, "u", "l", 9⟩ =
      [Bucket.switch] :=
  ⟨(classifyOutput_total_default_switch _).1,
   (classifyOutput_total_default_switch _).2 (by decide) (by decide) (by decide) rfl⟩

/-- Membership in a collected bucket comes from the contribution of some
button of the list. -/
theorem mem_collectWith {α : Type} {f : Button → List α} {x : α} :
    ∀ {l : List Button}, x ∈ collectWith f l ↔ ∃ b ∈ l, x ∈ f b := by
  intro l
  induction l with
  | nil => simp [collectWith]
  | cons hd tl ih => simp [collectWith, ih]

/-- Scene eligibility unfolded to the two conditions of the source. -/
theorem sceneEligible_iff (b : Button) :
    sceneEligible b = true ↔
      (b.name ≠ "Unknown Button" ∧ b.button_type ∈ allowedButtonTypes) := by
  simp [sceneEligible]

/-- A button occurs in the scene bucket of its keypad exactly when it is a
member of the button list and scene-eligible. -/
theorem scene_bucket_mem (area dev : String) (k : Keypad) (b : Button) (l : List Button) :
    (∃ r ∈ collectScenes area dev k l, r.button = b) ↔
      (b ∈ l ∧ sceneEligible b = true) := by
  unfold collectScenes
  constructor
  · rintro ⟨r, hr, hrb⟩
    rcases mem_collectWith.mp hr with ⟨b', hb', hrf⟩
    unfold buttonSceneRecs at hrf
    by_cases h : sceneEligible b'
    · rw [if_pos h] at hrf
      simp only [List.mem_singleton] at hrf
      subst hrf
      simp only at hrb
      subst hrb
      exact ⟨hb', h⟩
    · rw [if_neg h] at hrf
      simp at hrf
  · rintro ⟨hb, h⟩
    refine ⟨⟨area, dev, k, b, findLed k b⟩, mem_collectWith.mpr ⟨b, hb, ?_⟩, rfl⟩
    unfold buttonSceneRecs
    rw [if_pos h]
    simp

/-- A button occurs in the raw-buttons bucket of its keypad exactly when
it is a member of the button list and has a non-empty button type. -/
theorem raw_bucket_mem (area dev : String) (k : Keypad) (b : Button) (l : List Button) :
    (∃ r ∈ collectRawButtons area dev k l, r.button = b) ↔
      (b ∈ l ∧ b.button_type ≠ "") := by
  unfold collectRawButtons
  constructor
  · rintro ⟨r, hr, hrb⟩
    rcases mem_collectWith.mp hr with ⟨b', hb', hrf⟩
    unfold buttonRawRecs at hrf
    by_cases h : b'.button_type ≠ ""
    · rw [if_pos h] at hrf
      simp only [List.mem_singleton] at hrf
      subst hrf
      simp only at hrb
      subst hrb
      exact ⟨hb', h⟩
    · rw [if_neg h] at hrf
      simp at hrf
  · rintro ⟨hb, h⟩
    refine ⟨⟨area, dev, k, b⟩, mem_collectWith.mpr ⟨b, hb, ?_⟩, rfl⟩
    unfold buttonRawRecs
    rw [if_pos h]
    simp

/-- Every allow-listed button type is a non-empty string. -/
theorem allowedButtonTypes_ne_empty : ∀ t ∈ allowedButtonTypes, t ≠ "" := by
  decide

/-- C2: a keypad button is registered in the scene bucket iff its name is
not the `"Unknown Button"` placeholder and its button type is in the fixed
allow-list of eight styles; independently it is registered in the
raw-buttons bucket iff its button type is non-empty; hence a button with
the placeholder name and an allow-listed type lands in the raw-buttons
bucket but not in the scene bucket. -/
theorem button_scene_and_raw_registration (area dev : String) (k : Keypad) (b : Button)
    (hb : b ∈ k.buttons) :
    allowedButtonTypes.length = 8 ∧
    ((∃ r ∈ collectScenes area dev k k.buttons, r.button = b) ↔
      (b.name ≠ "Unknown Button" ∧ b.button_type ∈ allowedButtonTypes)) ∧
    ((∃ r ∈ collectRawButtons area dev k k.buttons, r.button = b) ↔
      b.button_type ≠ "") ∧
    (b.name = "Unknown Button" → b.button_type ∈ allowedButtonTypes →
      (∃ r ∈ collectRawButtons area dev k k.buttons, r.button = b) ∧
      ¬∃ r ∈ collectScenes area dev k k.buttons, r.button = b) := by
  refine ⟨rfl, ?_, ?_, ?_⟩
  · rw [scene_bucket_mem, sceneEligible_iff]
    simp [hb]
  · rw [raw_bucket_mem]
    simp [hb]
  · intro hname htype
    constructor
    · rw [raw_bucket_mem]
      exact ⟨hb, allowedButtonTypes_ne_empty _ htype⟩
    · rw [scene_bucket_mem, sceneEligible_iff]
      simp [hname]

/-- C2 witness: the end-to-end scenario of the spec — a keypad with one
button named "Unknown Button" of type "SingleAction" and a paired LED at
the same slot: the button is in the raw-buttons bucket but not in the
scene bucket. -/
theorem button_scene_and_raw_registration_witness :
    (∃ r ∈ collectRawButtons "A" "K"
        ⟨"K", [⟨"Unknown Button", 1, "SingleAction", 5, "bu", "bl"⟩],
          [⟨"Led 1", 1, "lu", "ll"⟩]⟩
        [⟨"Unknown Button", 1, "SingleAction", 5, "bu", "bl"⟩],
      r.button = ⟨"Unknown Button", 1, "SingleAction", 5, "bu", "bl"⟩) ∧
    ¬∃ r ∈ collectScenes "A" "K"
        ⟨"K", [⟨"Unknown Button", 1, "SingleAction", 5, "bu", "bl"⟩],
          [⟨"Led 1", 1, "lu", "ll"⟩]⟩
        [⟨"Unknown Button", 1, "SingleAction", 5, "bu", "bl"⟩],
      r.button = ⟨"Unknown Button", 1, "SingleAction", 5, "bu", "bl"⟩ :=
  (button_scene_and_raw_registration "A" "K"
      ⟨"K", [⟨"Unknown Button", 1, "SingleAction", 5, "bu", "bl"⟩],
        [⟨"Led 1", 1, "lu", "ll"⟩]⟩
      ⟨"Unknown Button", 1, "SingleAction", 5, "bu", "bl"⟩
      (by simp)).2.2.2 rfl (by decide)

/-- C6: for a scene-eligible button, an LED record enters the
controllable-LED bucket exactly when the button has an associated LED
(same slot number on the same keypad) and the button's LED-logic mode is
the sentinel value 5; a button with no matching LED, or with a different
LED-logic mode, contributes nothing. -/
theorem led_registration_iff_logic_five (area dev : String) (k : Keypad) (b : Button)
    (hb : sceneEligible b = true) :
    (∀ led : Led, (⟨area, dev, k, led⟩ : LedRec) ∈ buttonLedRecs area dev k b ↔
      (findLed k b = some led ∧ b.led_logic = 5)) ∧
    (findLed k b = none → buttonLedRecs area dev k b = []) ∧
    (b.led_logic ≠ 5 → buttonLedRecs area dev k b = []) := by
  unfold buttonLedRecs
  rw [if_pos hb]
  refine ⟨fun led => ?_, fun hnone => ?_, fun hlogic => ?_⟩
  · cases hfind : findLed k b with
    | none => simp
    | some led' =>
        by_cases h5 : b.led_logic = 5
        · simp only [if_pos h5, List.mem_singleton]
          constructor
          · intro h
            cases h
            exact ⟨rfl, h5⟩
          · rintro ⟨hl, -⟩
            cases hl
            rfl
        · simp [h5]
  · rw [hnone]
  · cases hfind : findLed k b with
    | none => rfl
    | some led' => simp [hlogic]

/-- C6 witness: a keypad whose LED shares the button's slot number and
whose button has `led_logic = 5` registers that LED; the iff also rules
everything else out. -/
theorem led_registration_iff_logic_five_witness :
    (⟨"A", "K", ⟨"K", [⟨"Scene 1", 2, "Toggle", 5, "bu", "bl"⟩], [⟨"Led 2", 2, "lu", "ll"⟩]⟩,
        ⟨"Led 2", 2, "lu", "ll"⟩⟩ : LedRec) ∈
      buttonLedRecs "A" "K"
        ⟨"K", [⟨"Scene 1", 2, "Toggle", 5, "bu", "bl"⟩], [⟨"Led 2", 2, "lu", "ll"⟩]⟩
        ⟨"Scene 1", 2, "Toggle", 5, "bu", "bl"⟩ :=
  ((led_registration_iff_logic_five "A" "K"
      ⟨"K", [⟨"Scene 1", 2, "Toggle", 5, "bu", "bl"⟩], [⟨"Led 2", 2, "lu", "ll"⟩]⟩
      ⟨"Scene 1", 2, "Toggle", 5, "bu", "bl"⟩ (by decide)).1
    ⟨"Led 2", 2, "lu", "ll"⟩).mpr ⟨by decide, rfl⟩

/-- C7: an occupancy binary sensor is registered for an area exactly when
the area's occupancy group exists and has a non-zero numeric id; a group
with id 0 is excluded. -/
theorem occupancy_sensor_iff_nonzero_id (n : String) (a : Area) :
    (areaBinarySensors n a ≠ [] ↔
      ∃ og, a.occupancy_group = some og ∧ og.id ≠ 0) ∧
    (∀ og, (n, og) ∈ areaBinarySensors n a ↔
      (a.occupancy_group = some og ∧ og.id ≠ 0)) ∧
    (∀ og, a.occupancy_group = some og → og.id = 0 → areaBinarySensors n a = []) := by
  unfold areaBinarySensors
  cases hog : a.occupancy_group with
  | none => simp
  | some og =>
      by_cases h0 : og.id = 0
      · simp [h0]
      · simp only [if_pos h0, ne_eq]
        refine ⟨by simp [hog, h0], fun og' => ?_, fun og' hsome h0' => ?_⟩
        · simp only [List.mem_singleton, Prod.mk.injEq, true_and, Option.some.injEq]
          constructor
          · rintro rfl
            exact ⟨rfl, h0⟩
          · rintro ⟨hsome, -⟩
            cases hsome
            rfl
        · cases hsome
          exact absurd h0' h0

/-- C7 witness: a real occupancy group (id 2) is registered; a group with
id 0 is excluded. -/
theorem occupancy_sensor_iff_nonzero_id_witness :
    ("Area", (⟨"Occ", 2, "ou", "ol"⟩ : OccupancyGroup)) ∈
      areaBinarySensors "Area" ⟨"Area", "Home", [], [], some ⟨"Occ", 2, "ou", "ol"⟩⟩ ∧
    areaBinarySensors "Area" ⟨"Area", "Home", [], [], some ⟨"Occ", 0, "ou", "ol"⟩⟩ = [] :=
  ⟨((occupancy_sensor_iff_nonzero_id "Area"
        ⟨"Area", "Home", [], [], some ⟨"Occ", 2, "ou", "ol"⟩⟩).2.1
      ⟨"Occ", 2, "ou", "ol"⟩).mpr ⟨rfl, by decide⟩,
   (occupancy_sensor_iff_nonzero_id "Area"
        ⟨"Area", "Home", [], [], some ⟨"Occ", 0, "ou", "ol"⟩⟩).2.2
      ⟨"Occ", 0, "ou", "ol"⟩ rfl rfl⟩

/-- Mapping a function that fixes every member of a list fixes the list. -/
theorem map_eq_self_of_mem {α : Type} {l : List α} {f : α → α}
    (h : ∀ x ∈ l, f x = x) : l.map f = l := by
  induction l with
  | nil => rfl
  | cons hd tl ih =>
      simp only [List.map_cons, h hd (List.mem_cons_self hd tl)]
      rw [ih fun x hx => h x (List.mem_cons_of_mem hd hx)]

/-- The Boolean key test of the entity lookup agrees with `entKeyed`. -/
theorem entity_key_pred_iff (domain uid : String) (e : RegEntry) :
    (e.domain == domain && e.platform == DOMAIN && e.unique_id == uid) = true ↔
      entKeyed domain uid e := by
  simp [entKeyed, and_assoc]

/-- The Boolean key test of the device lookup agrees with `devKeyed`. -/
theorem device_key_pred_iff (uid : String) (d : DeviceEntry) :
    d.identifiers.contains (DOMAIN, uid) = true ↔ devKeyed uid d := by
  simp [devKeyed]

/-- An empty new uuid makes the entity migration routine a no-op. -/
theorem check_entity_empty_uuid (reg : List RegEntry) (platform legacy guid : String) :
    async_check_entity_unique_id reg platform "" legacy guid = reg := by
  unfold async_check_entity_unique_id
  rw [if_pos rfl]

/-- An empty new uuid makes the device migration routine a no-op. -/
theorem check_device_empty_uuid (reg : List DeviceEntry) (legacy guid : String) :
    async_check_device_identifiers reg "" legacy guid = reg := by
  unfold async_check_device_identifiers
  rw [if_pos rfl]

/-- A lookup miss makes the entity migration routine a no-op. -/
theorem check_entity_miss (reg : List RegEntry) (platform uuid legacy guid : String)
    (h : async_get_entity_id reg platform DOMAIN (guid ++ "_" ++ legacy) = none) :
    async_check_entity_unique_id reg platform uuid legacy guid = reg := by
  unfold async_check_entity_unique_id
  by_cases hu : uuid = ""
  · rw [if_pos hu]
  · rw [if_neg hu]
    simp only [h]

/-- A lookup miss makes the device migration routine a no-op. -/
theorem check_device_miss (reg : List DeviceEntry) (uuid legacy guid : String)
    (h : async_get_device reg (DOMAIN, guid ++ "_" ++ legacy) = none) :
    async_check_device_identifiers reg uuid legacy guid = reg := by
  unfold async_check_device_identifiers
  by_cases hu : uuid = ""
  · rw [if_pos hu]
  · rw [if_neg hu]
    simp only [h]

/-- When a registration keyed by the legacy key exists (and keys and
entity ids are unambiguous), the entity migration routine rewrites exactly
that registration in place to the new key. -/
theorem check_entity_found (reg : List RegEntry) (platform uuid legacy guid : String)
    (e₀ : RegEntry) (hu : uuid ≠ "") (he : e₀ ∈ reg)
    (hk : entKeyed platform (guid ++ "_" ++ legacy) e₀)
    (huniq : ∀ e₁ ∈ reg, ∀ e₂ ∈ reg, entKeyed platform (guid ++ "_" ++ legacy) e₁ →
      entKeyed platform (guid ++ "_" ++ legacy) e₂ → e₁ = e₂)
    (hids : reg.Pairwise fun a b => a.entity_id ≠ b.entity_id) :
    async_check_entity_unique_id reg platform uuid legacy guid =
      reg.map fun e =>
        if e = e₀ then { e₀ with unique_id := guid ++ "_" ++ uuid } else e := by
  have hsym : Symmetric (fun a b : RegEntry => a.entity_id ≠ b.entity_id) :=
    fun a b h hba => h hba.symm
  unfold async_check_entity_unique_id async_get_entity_id
  rw [if_neg hu]
  cases hfind : reg.find? fun e =>
      e.domain == platform && e.platform == DOMAIN &&
        e.unique_id == (guid ++ "_" ++ legacy) with
  | none =>
      exact absurd ((entity_key_pred_iff _ _ e₀).mpr hk)
        (List.find?_eq_none.mp hfind e₀ he)
  | some e₁ =>
      have he₁ : e₁ ∈ reg := List.mem_of_find?_eq_some hfind
      have hp₁ := List.find?_some hfind
      have hk₁ : entKeyed platform (guid ++ "_" ++ legacy) e₁ :=
        (entity_key_pred_iff _ _ e₁).mp hp₁
      have heq : e₁ = e₀ := huniq e₁ he₁ e₀ he hk₁ hk
      subst heq
      simp only [Option.map_some']
      unfold async_update_entity
      refine List.map_congr_left fun e hmem => ?_
      by_cases hcase : e = e₁
      · subst hcase
        simp
      · have hne : e.entity_id ≠ e₁.entity_id := hids.forall hsym hmem he₁ hcase
        simp [hne, hcase]

/-- When a device keyed by the legacy identifier exists (and identifiers
and device ids are unambiguous), the device migration routine rewrites
exactly that device's identifier set. -/
theorem check_device_found (reg : List DeviceEntry) (uuid legacy guid : String)
    (d₀ : DeviceEntry) (hu : uuid ≠ "") (hd : d₀ ∈ reg)
    (hk : devKeyed (guid ++ "_" ++ legacy) d₀)
    (huniq : ∀ d₁ ∈ reg, ∀ d₂ ∈ reg, devKeyed (guid ++ "_" ++ legacy) d₁ →
      devKeyed (guid ++ "_" ++ legacy) d₂ → d₁ = d₂)
    (hids : reg.Pairwise fun a b => a.id ≠ b.id) :
    async_check_device_identifiers reg uuid legacy guid =
      reg.map fun d =>
        if d = d₀ then { d₀ with identifiers := [(DOMAIN, guid ++ "_" ++ uuid)] }
        else d := by
  have hsym : Symmetric (fun a b : DeviceEntry => a.id ≠ b.id) :=
    fun a b h hba => h hba.symm
  unfold async_check_device_identifiers async_get_device
  rw [if_neg hu]
  cases hfind : reg.find? fun d =>
      d.identifiers.contains (DOMAIN, guid ++ "_" ++ legacy) with
  | none =>
      exact absurd ((device_key_pred_iff _ d₀).mpr hk)
        (List.find?_eq_none.mp hfind d₀ hd)
  | some d₁ =>
      have hd₁ : d₁ ∈ reg := List.mem_of_find?_eq_some hfind
      have hp₁ := List.find?_some hfind
      have hk₁ : devKeyed (guid ++ "_" ++ legacy) d₁ :=
        (device_key_pred_iff _ d₁).mp hp₁
      have heq : d₁ = d₀ := huniq d₁ hd₁ d₀ hd hk₁ hk
      subst heq
      unfold async_update_device
      refine List.map_congr_left fun d hmem => ?_
      by_cases hcase : d = d₁
      · subst hcase
        simp
      · have hne : d.id ≠ d₁.id := hids.forall hsym hmem hd₁ hcase
        simp [hne, hcase]

/-- C3: the identifier-migration routines are a no-op when the new uuid is
empty; on a lookup miss they are a silent no-op; and when a registration
keyed by `"{controller_guid}_{legacy_uuid}"` is found they rewrite exactly
that registration in place to be keyed by `"{controller_guid}_{uuid}"`,
preserving all its other stored attributes (the well-formedness
hypotheses say that keys and ids are unambiguous in the registry, which
the host registries guarantee). -/
theorem migration_routine_contract (ereg : List RegEntry) (dreg : List DeviceEntry)
    (platform uuid legacy_uuid controller_guid : String) :
    (uuid = "" →
      async_check_entity_unique_id ereg platform uuid legacy_uuid controller_guid = ereg ∧
      async_check_device_identifiers dreg uuid legacy_uuid controller_guid = dreg) ∧
    (async_get_entity_id ereg platform DOMAIN (controller_guid ++ "_" ++ legacy_uuid) = none →
      async_check_entity_unique_id ereg platform uuid legacy_uuid controller_guid = ereg) ∧
    (async_get_device dreg (DOMAIN, controller_guid ++ "_" ++ legacy_uuid) = none →
      async_check_device_identifiers dreg uuid legacy_uuid controller_guid = dreg) ∧
    (∀ e₀, uuid ≠ "" → e₀ ∈ ereg →
      entKeyed platform (controller_guid ++ "_" ++ legacy_uuid) e₀ →
      (∀ e₁ ∈ ereg, ∀ e₂ ∈ ereg,
        entKeyed platform (controller_guid ++ "_" ++ legacy_uuid) e₁ →
        entKeyed platform (controller_guid ++ "_" ++ legacy_uuid) e₂ → e₁ = e₂) →
      ereg.Pairwise (fun a b => a.entity_id ≠ b.entity_id) →
      async_check_entity_unique_id ereg platform uuid legacy_uuid controller_guid =
        ereg.map fun e =>
          if e = e₀ then { e₀ with unique_id := controller_guid ++ "_" ++ uuid }
          else e) ∧
    (∀ d₀, uuid ≠ "" → d₀ ∈ dreg →
      devKeyed (controller_guid ++ "_" ++ legacy_uuid) d₀ →
      (∀ d₁ ∈ dreg, ∀ d₂ ∈ dreg,
        devKeyed (controller_guid ++ "_" ++ legacy_uuid) d₁ →
        devKeyed (controller_guid ++ "_" ++ legacy_uuid) d₂ → d₁ = d₂) →
      dreg.Pairwise (fun a b => a.id ≠ b.id) →
      async_check_device_identifiers dreg uuid legacy_uuid controller_guid =
        dreg.map fun d =>
          if d = d₀ then
            { d₀ with identifiers := [(DOMAIN, controller_guid ++ "_" ++ uuid)] }
          else d) := by
  refine ⟨?_, ?_, ?_, ?_, ?_⟩
  · rintro rfl
    exact ⟨check_entity_empty_uuid .., check_device_empty_uuid ..⟩
  · exact check_entity_miss ereg platform uuid legacy_uuid controller_guid
  · exact check_device_miss dreg uuid legacy_uuid controller_guid
  · intro e₀ hu he hk huniq hids
    exact check_entity_found ereg platform uuid legacy_uuid controller_guid e₀ hu he hk
      huniq hids
  · intro d₀ hu hd hk huniq hids
    exact check_device_found dreg uuid legacy_uuid controller_guid d₀ hu hd hk huniq hids

/-- C3 witness: a singleton entity registry and a singleton device
registry keyed by the legacy key are rewritten to the new key; the
empty-uuid and lookup-miss branches are exercised on the same data. -/
theorem migration_routine_contract_witness :
    (async_check_entity_unique_id
        [⟨"light.kitchen", "light", "lutron", "G_L1", 7⟩] "light" "" "L1" "G" =
      [⟨"light.kitchen", "light", "lutron", "G_L1", 7⟩] ∧
     async_check_device_identifiers
        [⟨"dev1", [("lutron", "G_L1")], 3⟩] "" "L1" "G" =
      [⟨"dev1", [("lutron", "G_L1")], 3⟩]) ∧
    (async_check_entity_unique_id
        [⟨"light.kitchen", "light", "lutron", "G_L1", 7⟩] "light" "U1" "ZZ" "G" =
      [⟨"light.kitchen", "light", "lutron", "G_L1", 7⟩]) ∧
    (async_check_entity_unique_id
        [⟨"light.kitchen", "light", "lutron", "G_L1", 7⟩] "light" "U1" "L1" "G" =
      ([⟨"light.kitchen", "light", "lutron", "G_L1", 7⟩].map fun e =>
        if e = ⟨"light.kitchen", "light", "lutron", "G_L1", 7⟩ then
          { entity_id := "light.kitchen", domain := "light", platform := "lutron",
            unique_id := "G" ++ "_" ++ "U1", attrs := 7 }
        else e)) ∧
    (async_check_device_identifiers
        [⟨"dev1", [("lutron", "G_L1")], 3⟩] "U1" "L1" "G" =
      ([⟨"dev1", [("lutron", "G_L1")], 3⟩].map fun d =>
        if d = ⟨"dev1", [("lutron", "G_L1")], 3⟩ then
          { id := "dev1", identifiers := [("lutron", "G" ++ "_" ++ "U1")], attrs := 3 }
        else d)) :=
  ⟨(migration_routine_contract
      [⟨"light.kitchen", "light", "lutron", "G_L1", 7⟩]
      [⟨"dev1", [("lutron", "G_L1")], 3⟩] "light" "" "L1" "G").1 rfl,
   (migration_routine_contract
      [⟨"light.kitchen", "light", "lutron", "G_L1", 7⟩]
      [⟨"dev1", [("lutron", "G_L1")], 3⟩] "light" "U1" "ZZ" "G").2.1 (by decide),
   (migration_routine_contract
      [⟨"light.kitchen", "light", "lutron", "G_L1", 7⟩]
      [⟨"dev1", [("lutron", "G_L1")], 3⟩] "light" "U1" "L1" "G").2.2.2.1
      ⟨"light.kitchen", "light", "lutron", "G_L1", 7⟩
      (by decide) (by simp) (by decide) (by decide) (by decide),
   (migration_routine_contract
      [⟨"light.kitchen", "light", "lutron", "G_L1", 7⟩]
      [⟨"dev1", [("lutron", "G_L1")], 3⟩] "light" "U1" "L1" "G").2.2.2.2
      ⟨"dev1", [("lutron", "G_L1")], 3⟩
      (by decide) (by simp) (by decide) (by decide) (by decide)⟩

/-- C4: when an entity is registered under the legacy key (keys
unambiguous as in the host registry), one run of the migration with a
non-empty new uuid re-keys that registration to the new uuid, and a
second run with the same arguments leaves the registry unchanged. -/
theorem migration_idempotent (reg : List RegEntry)
    (platform uuid legacy_uuid controller_guid : String)
    (hu : uuid ≠ "")
    (huniq : ∀ e₁ ∈ reg, ∀ e₂ ∈ reg,
      entKeyed platform (controller_guid ++ "_" ++ legacy_uuid) e₁ →
      entKeyed platform (controller_guid ++ "_" ++ legacy_uuid) e₂ → e₁ = e₂)
    (hex : ∃ e₀ ∈ reg, entKeyed platform (controller_guid ++ "_" ++ legacy_uuid) e₀) :
    (∀ e₀ ∈ reg, entKeyed platform (controller_guid ++ "_" ++ legacy_uuid) e₀ →
      { e₀ with unique_id := controller_guid ++ "_" ++ uuid } ∈
        async_check_entity_unique_id reg platform uuid legacy_uuid controller_guid) ∧
    async_check_entity_unique_id
        (async_check_entity_unique_id reg platform uuid legacy_uuid controller_guid)
        platform uuid legacy_uuid controller_guid =
      async_check_entity_unique_id reg platform uuid legacy_uuid controller_guid := by
  obtain ⟨ew, hew, hkw⟩ := hex
  unfold async_check_entity_unique_id async_get_entity_id
  rw [if_neg hu]
  cases hfind : reg.find? fun e =>
      e.domain == platform && e.platform == DOMAIN &&
        e.unique_id == (controller_guid ++ "_" ++ legacy_uuid) with
  | none =>
      exact absurd ((entity_key_pred_iff _ _ ew).mpr hkw)
        (List.find?_eq_none.mp hfind ew hew)
  | some e₁ =>
      have he₁ : e₁ ∈ reg := List.mem_of_find?_eq_some hfind
      have hp₁ := List.find?_some hfind
      have hk₁ : entKeyed platform (controller_guid ++ "_" ++ legacy_uuid) e₁ :=
        (entity_key_pred_iff _ _ e₁).mp hp₁
      simp only [Option.map_some']
      constructor
      · intro e₀ he₀ hk₀
        have heq : e₀ = e₁ := huniq e₀ he₀ e₁ he₁ hk₀ hk₁
        subst heq
        unfold async_update_entity
        refine List.mem_map.mpr ⟨e₀, he₀, ?_⟩
        simp
      · rw [if_neg hu]
        cases hfind2 : (async_update_entity reg e₁.entity_id
            (controller_guid ++ "_" ++ uuid)).find? fun e =>
              e.domain == platform && e.platform == DOMAIN &&
                e.unique_id == (controller_guid ++ "_" ++ legacy_uuid) with
        | none => rfl
        | some e₂ =>
            have he₂ := List.mem_of_find?_eq_some hfind2
            have hp₂ := List.find?_some hfind2
            have hk₂ : entKeyed platform (controller_guid ++ "_" ++ legacy_uuid) e₂ :=
              (entity_key_pred_iff _ _ e₂).mp hp₂
            simp only [Option.map_some']
            unfold async_update_entity at he₂ ⊢
            rcases List.mem_map.mp he₂ with ⟨e', he', hfe⟩
            by_cases hcase : e'.entity_id == e₁.entity_id
            · rw [if_pos hcase] at hfe
              have hid₂ : e₂.entity_id = e₁.entity_id := by
                rw [← hfe]
                exact eq_of_beq hcase
              rw [hid₂]
              refine map_eq_self_of_mem fun x hx => ?_
              rcases List.mem_map.mp hx with ⟨e'', he'', hfx⟩
              by_cases hcase2 : e''.entity_id == e₁.entity_id
              · rw [if_pos hcase2] at hfx
                rw [← hfx]
                simp
              · rw [if_neg hcase2] at hfx
                rw [← hfx]
                rw [if_neg hcase2]
            · rw [if_neg hcase] at hfe
              subst hfe
              have heq : e' = e₁ := huniq e' he' e₁ he₁ hk₂ hk₁
              rw [heq] at hcase
              simp at hcase

/-- C4 witness: a concrete one-entry registry keyed by the legacy key is
re-keyed once, and a second run changes nothing. -/
theorem migration_idempotent_witness :
    ({ entity_id := "light.kitchen", domain := "light", platform := "lutron",
       unique_id := "G" ++ "_" ++ "U1", attrs := 7 } : RegEntry) ∈
      async_check_entity_unique_id
        [⟨"light.kitchen", "light", "lutron", "G_L1", 7⟩] "light" "U1" "L1" "G" ∧
    async_check_entity_unique_id
        (async_check_entity_unique_id
          [⟨"light.kitchen", "light", "lutron", "G_L1", 7⟩] "light" "U1" "L1" "G")
        "light" "U1" "L1" "G" =
      async_check_entity_unique_id
        [⟨"light.kitchen", "light", "lutron", "G_L1", 7⟩] "light" "U1" "L1" "G" :=
  ⟨(migration_idempotent [⟨"light.kitchen", "light", "lutron", "G_L1", 7⟩]
      "light" "U1" "L1" "G" (by decide) (by decide)
      ⟨⟨"light.kitchen", "light", "lutron", "G_L1", 7⟩, by simp, by decide⟩).1
      ⟨"light.kitchen", "light", "lutron", "G_L1", 7⟩ (by simp) (by decide),
   (migration_idempotent [⟨"light.kitchen", "light", "lutron", "G_L1", 7⟩]
      "light" "U1" "L1" "G" (by decide) (by decide)
      ⟨⟨"light.kitchen", "light", "lutron", "G_L1", 7⟩, by simp, by decide⟩).2⟩

/-- C9: the variable branch of the setup pass calls both migration
routines with the empty string as the new uuid, so the entity and device
registries are left completely unchanged, whatever uuids the vendor
variable records carry. -/
theorem variable_pass_never_migrates (controller_guid : String) (vars : List Sysvar)
    (ereg : List RegEntry) (dreg : List DeviceEntry) (acc : List (String × Sysvar)) :
    (processVariables controller_guid vars ereg dreg acc).1 = ereg ∧
    (processVariables controller_guid vars ereg dreg acc).2.1 = dreg := by
  induction vars generalizing ereg dreg acc with
  | nil => exact ⟨rfl, rfl⟩
  | cons v rest ih =>
      unfold processVariables
      rw [check_entity_empty_uuid, check_device_empty_uuid]
      exact ih ereg dreg (acc ++ [(v.name, v)])

/-- C10: for every incoming button event, the handler either fires a
broadcast `lutron_event` whose action tag is one of exactly five values —
press, release, hold, double_tap, hold_release — or fires nothing when
the event is not in the dispatch table; the `single_press` member (legacy
tag "single") is never emitted. -/
theorem handle_event_action_values (idSlug fullId btnUuid : String) (e : ButtonEvent) :
    (∀ fe a, handle_event idSlug fullId btnUuid e = some (fe, a) →
      fe.action ∈ ["press", "release", "hold", "double_tap", "hold_release"] ∧
      a ≠ LutronEventType.single_press ∧
      fe.action ≠ LEGACY_EVENT_TYPES LutronEventType.single_press ∧
      fe.action ≠ "single_press") ∧
    (evMap e = none → handle_event idSlug fullId btnUuid e = none) := by
  constructor
  · intro fe a h
    cases e <;>
      simp only [handle_event, evMap, LEGACY_EVENT_TYPES, Option.some.injEq,
        Prod.mk.injEq] at h <;>
      rcases h with ⟨rfl, rfl⟩ <;>
      simp [LEGACY_EVENT_TYPES]
  · intro h
    cases e <;> simp [evMap] at h

/-- C10 witness: a press event fires with the "press" action tag and never
as `single_press`. -/
theorem handle_event_action_values_witness :
    ("press" : String) ∈ ["press", "release", "hold", "double_tap", "hold_release"] ∧
    LutronEventType.press ≠ LutronEventType.single_press ∧
    ("press" : String) ≠ LEGACY_EVENT_TYPES LutronEventType.single_press ∧
    ("press" : String) ≠ "single_press" :=
  (handle_event_action_values "keypad_1_button_1" "area_keypad_1_button_1" "uuid-1"
      ButtonEvent.press).1
    ⟨"keypad_1_button_1", "press", "area_keypad_1_button_1", "uuid-1"⟩
    LutronEventType.press rfl

/-- C5 counterexample: the spec example claims the host-side round-trip of
brightness 128 yields 127; evaluating the code's conversions under exact
IEEE-754 binary64 semantics yields 128. -/
theorem brightness_roundtrip_128_counterexample :
    to_hass_level (to_lutron_level 128) = 128 ∧
    to_hass_level (to_lutron_level 128) ≠ 127 := by
  constructor <;> decide

set_option maxRecDepth 400000 in
/-- C5 (amended): `to_hass_level` truncates toward zero, which on the
nonnegative brightness range is the floor; `to_lutron_level 128` is
50.196078...; its host-side round-trip is 128; and for every integer
level in [0, 255] the round-trip lands within one unit of the level, i.e.
in the set the spec allows (in fact it is exact at every point under
binary64 semantics). -/
theorem brightness_conversion_contract :
    (∀ n d : Nat, 0 < d → d * pyInt n d ≤ n ∧ n < d * (pyInt n d + 1)) ∧
    (to_lutron_level 128).1 * 1000000 / (to_lutron_level 128).2 = 50196078 ∧
    to_hass_level (to_lutron_level 128) = 128 ∧
    (∀ x : Nat, x < 256 →
      (to_hass_level (to_lutron_level x) = x ∨
       to_hass_level (to_lutron_level x) + 1 = x ∨
       to_hass_level (to_lutron_level x) = x + 1)) := by
  refine ⟨?_, by decide, by decide, ?_⟩
  · intro n d hd
    have h1 := Nat.div_add_mod n d
    have h2 := Nat.mod_lt n hd
    unfold pyInt
    constructor
    · omega
    · rw [Nat.mul_add, Nat.mul_one]
      omega
  · decide

/-- C5 witness: the truncation bound at 12800/100 and the round-trip at
level 200. -/
theorem brightness_conversion_contract_witness :
    (100 * pyInt 12800 100 ≤ 12800 ∧ 12800 < 100 * (pyInt 12800 100 + 1)) ∧
    (to_hass_level (to_lutron_level 200) = 200 ∨
     to_hass_level (to_lutron_level 200) + 1 = 200 ∨
     to_hass_level (to_lutron_level 200) = 200 + 1) :=
  ⟨brightness_conversion_contract.1 12800 100 (by decide),
   brightness_conversion_contract.2.2.2 200 (by decide)⟩

end Lutron
